import Mathlib

/-!
Verification of `src/app/query_router.py` (tenant-isolated query router and
write optimizer).  The Python code is shallowly embedded: pure helpers become
Lean functions, the stateful `execute_query` / `upsert_hot_attributes` methods
become functions from an explicit pre-state and an environment (the outcomes
of the external database / cache calls) to a result record that carries the
returned value, the post-state, and the trace of resource events
(acquisitions, releases, cache operations, commits) the Python code performs.
-/

/-- Roles of data sources, mirroring `class DataSource(enum.Enum)`. -/
inductive DataSource
  | primary
  | replica
  | redis
  | redshift
deriving DecidableEq, Repr

/-- Consistency levels, mirroring `class ConsistencyLevel(enum.Enum)`. -/
inductive ConsistencyLevel
  | strong
  | eventual
  | analytics
deriving DecidableEq, Repr

/-- Identity of a connection pool: the primary pool or `replica_pools[i]`. -/
inductive Pool
  | primary
  | replicaPool (i : Nat)
deriving DecidableEq, Repr

/-!
### DatabasePool.get_replica_conn

`self._replica_lag` is a Python list of ints (possibly negative, since
`check_replica_lag` stores `int(primary_ts - replica_ts)` unclamped), so lags
are embedded as `Int`.
-/

/-- One fold step of Python `min(healthy_replicas, key=lambda x: x[1])`:
CPython's `min` keeps the earlier element on ties, replacing the current best
only when the new key is strictly smaller. -/
def minStep (acc y : Nat × Int) : Nat × Int :=
  if y.2 < acc.2 then y else acc

/-- Python `min(xs, key=lambda x: x[1])` on a nonempty list, first-wins. -/
def minByLag : List (Nat × Int) → Option (Nat × Int)
  | [] => none
  | x :: xs => some (xs.foldl minStep x)

/-- The list comprehension
`[(i, lag) for i, lag in enumerate(self._replica_lag) if lag <= max_lag_ms]`. -/
def healthyReplicas (lags : List Int) (max_lag_ms : Int) : List (Nat × Int) :=
  lags.enum.filter (fun p => p.2 ≤ max_lag_ms)

/-- Result of `get_replica_conn`: which pool the connection was taken from,
the reported source role, the replica index (`-1` for primary) and lag. -/
structure ReplicaChoice where
  pool : Pool
  source : DataSource
  replica_index : Int
  lag_ms : Int
deriving DecidableEq, Repr

/-- `DatabasePool.get_replica_conn(max_lag_ms)`: collect replicas with
`lag <= max_lag_ms`; if none, fall back to the primary with index `-1` and
lag `0`; otherwise pick the least-lagged one (ties to the lowest index). -/
def get_replica_conn (lags : List Int) (max_lag_ms : Int) : ReplicaChoice :=
  match minByLag (healthyReplicas lags max_lag_ms) with
  | none =>
      { pool := Pool.primary, source := DataSource.primary
        replica_index := -1, lag_ms := 0 }
  | some (idx, lag) =>
      { pool := Pool.replicaPool idx, source := DataSource.replica
        replica_index := Int.ofNat idx, lag_ms := lag }

example :
    get_replica_conn [500, 100, 2500] 3000 =
      { pool := Pool.replicaPool 1, source := DataSource.replica
        replica_index := 1, lag_ms := 100 } := by decide

example :
    get_replica_conn [4000, 4000] 3000 =
      { pool := Pool.primary, source := DataSource.primary
        replica_index := -1, lag_ms := 0 } := by decide

example :
    get_replica_conn [7, 7, 3, 3] 3000 =
      { pool := Pool.replicaPool 2, source := DataSource.replica
        replica_index := 2, lag_ms := 3 } := by decide

/-- Spec of the first-wins fold underlying Python `min(..., key=...)`:
the result is the initial accumulator (then no list element is strictly
smaller) or the first list element attaining a value strictly below the
accumulator and minimal for the whole list. -/
theorem foldl_minStep_spec (xs : List (Nat × Int)) (x : Nat × Int) :
    (xs.foldl minStep x = x ∧ ∀ q ∈ xs, x.2 ≤ q.2) ∨
    (∃ k, ∃ hk : k < xs.length,
      xs.get ⟨k, hk⟩ = xs.foldl minStep x ∧
      (xs.foldl minStep x).2 < x.2 ∧
      (∀ q ∈ xs, (xs.foldl minStep x).2 ≤ q.2) ∧
      (∀ j, ∀ hj : j < xs.length, j < k →
        (xs.foldl minStep x).2 < (xs.get ⟨j, hj⟩).2)) := by
  induction xs generalizing x with
  | nil => left; simp
  | cons y ys ih =>
    rw [List.foldl_cons]
    by_cases hy : y.2 < x.2
    · have hstep : minStep x y = y := by simp [minStep, hy]
      rw [hstep]
      rcases ih y with ⟨heq, hall⟩ | ⟨k, hk, hget, hlt, hall, hbefore⟩
      · right
        refine ⟨0, by simp, ?_, ?_, ?_, ?_⟩
        · simpa using heq.symm
        · rw [heq]; exact hy
        · intro q hq
          rw [heq]
          rcases List.mem_cons.mp hq with h | h
          · exact h ▸ le_refl _
          · exact hall q h
        · intro j hj hj0; omega
      · right
        refine ⟨k + 1, by simpa using Nat.succ_lt_succ hk, ?_, ?_, ?_, ?_⟩
        · simpa using hget
        · exact lt_trans hlt hy
        · intro q hq
          rcases List.mem_cons.mp hq with h | h
          · rw [h]; exact le_of_lt hlt
          · exact hall q h
        · intro j hj hjk
          cases j with
          | zero => simpa using hlt
          | succ j' =>
            have hj' : j' < ys.length := by simpa using hj
            have := hbefore j' hj' (by omega)
            simpa using this
    · have hstep : minStep x y = x := by simp [minStep, hy]
      rw [hstep]
      rcases ih x with ⟨heq, hall⟩ | ⟨k, hk, hget, hlt, hall, hbefore⟩
      · left
        refine ⟨heq, ?_⟩
        intro q hq
        rcases List.mem_cons.mp hq with h | h
        · exact h ▸ le_of_not_lt hy
        · exact hall q h
      · right
        refine ⟨k + 1, by simpa using Nat.succ_lt_succ hk, ?_, ?_, ?_, ?_⟩
        · simpa using hget
        · exact hlt
        · intro q hq
          rcases List.mem_cons.mp hq with h | h
          · exact h ▸ le_of_lt (lt_of_lt_of_le hlt (le_of_not_lt hy))
          · exact hall q h
        · intro j hj hjk
          cases j with
          | zero => simpa using lt_of_lt_of_le hlt (le_of_not_lt hy)
          | succ j' =>
            have hj' : j' < ys.length := by simpa using hj
            have := hbefore j' hj' (by omega)
            simpa using this

/-- Membership in the healthy-replica comprehension, in terms of the lag
vector. -/
theorem mem_healthyReplicas (lags : List Int) (B : Int) (p : Nat × Int) :
    p ∈ healthyReplicas lags B ↔ lags.get? p.1 = some p.2 ∧ p.2 ≤ B := by
  unfold healthyReplicas
  rw [List.mem_filter]
  simp [List.mem_enum_iff_get?]

/-- The healthy-replica comprehension lists indices in increasing order. -/
theorem healthyReplicas_pairwise (lags : List Int) (B : Int) :
    (healthyReplicas lags B).Pairwise (fun p q => p.1 < q.1) := by
  have henum : lags.enum.Pairwise (fun p q : Nat × Int => p.1 < q.1) := by
    rw [List.pairwise_iff_get]
    intro i j hij
    rw [List.get_enum, List.get_enum]
    simpa using hij
  exact henum.sublist (List.filter_sublist _)

/-- Spec of `minByLag` on a nonempty list: the result is an element of the
list whose lag is a lower bound for the whole list, and every element at an
earlier position has strictly larger lag (first occurrence of the minimum). -/
theorem minByLag_spec (hs : List (Nat × Int)) (h0 : hs ≠ []) :
    ∃ r, minByLag hs = some r ∧
      (∃ k, ∃ hk : k < hs.length, hs.get ⟨k, hk⟩ = r ∧
        ∀ m, ∀ hm : m < hs.length, m < k → r.2 < (hs.get ⟨m, hm⟩).2) ∧
      ∀ q ∈ hs, r.2 ≤ q.2 := by
  cases hs with
  | nil => exact absurd rfl h0
  | cons h t =>
    refine ⟨t.foldl minStep h, rfl, ?_, ?_⟩
    · rcases foldl_minStep_spec t h with ⟨heq, _⟩ | ⟨k, hk, hget, hlt, _, hbefore⟩
      · exact ⟨0, by simp, by simpa using heq.symm, by omega⟩
      · refine ⟨k + 1, by simpa using Nat.succ_lt_succ hk, by simpa using hget, ?_⟩
        intro m hm hmk
        cases m with
        | zero => simpa using hlt
        | succ m' =>
          have hm' : m' < t.length := by simpa using hm
          simpa using hbefore m' hm' (by omega)
    · intro q hq
      rcases foldl_minStep_spec t h with ⟨heq, hall⟩ | ⟨_, _, _, hlt, hall, _⟩
      · rw [heq]
        rcases List.mem_cons.mp hq with h1 | h1
        · rw [h1]
        · exact hall q h1
      · rcases List.mem_cons.mp hq with h1 | h1
        · rw [h1]; exact le_of_lt hlt
        · exact hall q h1

/-- C1: `get_replica_conn(B)` either returns, for the lowest index `i`
attaining the minimum lag among replicas with lag ≤ B, the connection from
replica pool `i` with the replica role, index `i` and that lag; or, when no
replica has lag ≤ B, the primary connection with the primary role,
`replica_index = -1` and `lag_ms = 0`. -/
theorem get_replica_conn_correct (lags : List Int) (B : Int) :
    ((∀ j, ∀ hj : j < lags.length, ¬ lags.get ⟨j, hj⟩ ≤ B) ∧
      get_replica_conn lags B =
        { pool := Pool.primary, source := DataSource.primary
          replica_index := -1, lag_ms := 0 }) ∨
    (∃ i, ∃ hi : i < lags.length,
      get_replica_conn lags B =
        { pool := Pool.replicaPool i, source := DataSource.replica
          replica_index := Int.ofNat i, lag_ms := lags.get ⟨i, hi⟩ } ∧
      lags.get ⟨i, hi⟩ ≤ B ∧
      (∀ j, ∀ hj : j < lags.length,
        lags.get ⟨j, hj⟩ ≤ B → lags.get ⟨i, hi⟩ ≤ lags.get ⟨j, hj⟩) ∧
      (∀ j, ∀ hj : j < lags.length,
        j < i → lags.get ⟨j, hj⟩ ≤ B → lags.get ⟨i, hi⟩ < lags.get ⟨j, hj⟩)) := by
  by_cases hemp : healthyReplicas lags B = []
  · left
    constructor
    · intro j hj hle
      have hmem : (j, lags.get ⟨j, hj⟩) ∈ healthyReplicas lags B := by
        rw [mem_healthyReplicas]
        exact ⟨by rw [List.get?_eq_get hj], hle⟩
      rw [hemp] at hmem
      simp at hmem
    · unfold get_replica_conn
      rw [hemp]
      rfl
  · right
    obtain ⟨r, hmin, ⟨k, hk, hgetk, hfirst⟩, hlb⟩ := minByLag_spec _ hemp
    have hrmem : r ∈ healthyReplicas lags B := hgetk ▸ List.get_mem _ _ _
    obtain ⟨hget?, hrB⟩ := (mem_healthyReplicas lags B r).mp hrmem
    have hi : r.1 < lags.length := by
      rcases List.get?_eq_some.mp hget? with ⟨h1, _⟩
      exact h1
    have hval : lags.get ⟨r.1, hi⟩ = r.2 := by
      rcases List.get?_eq_some.mp hget? with ⟨h1, h2⟩
      exact h2
    have hpw := healthyReplicas_pairwise lags B
    rw [List.pairwise_iff_get] at hpw
    refine ⟨r.1, hi, ?_, hval ▸ hrB, ?_, ?_⟩
    · unfold get_replica_conn
      rw [hmin, hval]
    · intro j hj hjB
      have hmem : (j, lags.get ⟨j, hj⟩) ∈ healthyReplicas lags B := by
        rw [mem_healthyReplicas]
        exact ⟨by rw [List.get?_eq_get hj], hjB⟩
      rw [hval]
      exact hlb _ hmem
    · intro j hj hji hjB
      have hmem : (j, lags.get ⟨j, hj⟩) ∈ healthyReplicas lags B := by
        rw [mem_healthyReplicas]
        exact ⟨by rw [List.get?_eq_get hj], hjB⟩
      obtain ⟨kq, hgetkq⟩ := List.get_of_mem hmem
      have hkq : kq.1 < k := by
        by_contra hge
        rcases Nat.lt_or_ge k kq.1 with hlt2 | hge2
        · have := hpw ⟨k, hk⟩ kq hlt2
          rw [hgetk, hgetkq] at this
          simp only at this
          omega
        · have hkeq : kq.1 = k := by omega
          have : (⟨k, hk⟩ : Fin _) = kq := by
            apply Fin.ext
            exact hkeq.symm
          rw [← this, hgetk] at hgetkq
          have : r.1 = j := by rw [hgetkq]
          omega
      have := hfirst kq.1 kq.2 hkq
      rw [hval]
      have hq2 : ((healthyReplicas lags B).get kq).2 = lags.get ⟨j, hj⟩ := by
        rw [hgetkq]
      rw [hq2] at this
      exact this

/-!
### Cells and rows

`cursor.fetchall()` returns a list of tuples of Python scalar values.  The
scalars relevant to the router are embedded as `Cell`: JSON-native values
(`int`, `str`, `bool`, `None`) plus the two database types whose JSON
serialization goes through `default=str` (`Decimal`, `datetime`); for the
latter two the constructor carries the Python `str()` form of the value.
-/

inductive Cell
  | int (n : Int)
  | str (s : String)
  | bool (b : Bool)
  | null
  | decimal (s : String)
  | timestamp (s : String)
deriving DecidableEq, Repr

/-- Python `str(val)` on a cell. -/
def pyStr : Cell → String
  | Cell.int n => toString n
  | Cell.str s => s
  | Cell.bool b => if b then "True" else "False"
  | Cell.null => "None"
  | Cell.decimal s => s
  | Cell.timestamp s => s

/-- A fetched row (a Python tuple of cells) and a result set. -/
abbrev Row := List Cell

/-- A result set as returned by `cursor.fetchall()`. -/
abbrev Rows := List Row

/-!
### WriteOptimizer.ingest_telemetry: copy-protocol serialization

A telemetry event is a dict probed with `e.get(field)`; a missing key and an
explicit `None` value both reach `fmt` as Python `None`, embedded as
`Cell.null`.
-/

structure TelemetryEvent where
  entity_id : Cell
  tenant_id : Cell
  attribute_id : Cell
  value : Cell
  value_int : Cell
  value_decimal : Cell
  ingested_at : Cell
deriving DecidableEq, Repr

/-- The helper `fmt(val)` inside `ingest_telemetry`:
`"\\N" if val is None or val == "" else str(val)`. -/
def fmt (val : Cell) : String :=
  if val = Cell.null ∨ val = Cell.str ("") then "\\N" else pyStr val

/-- One line of the COPY payload: the f-string joining the seven formatted
columns with tabs, in the fixed source order. -/
def eventLine (e : TelemetryEvent) : String :=
  fmt e.entity_id ++ "\t" ++ fmt e.tenant_id ++ "\t" ++ fmt e.attribute_id ++
    "\t" ++ fmt e.value ++ "\t" ++ fmt e.value_int ++ "\t" ++
    fmt e.value_decimal ++ "\t" ++ fmt e.ingested_at

/-- The full COPY payload built by `ingest_telemetry`:
`"\n".join(csv_lines)` over the serialized events. -/
def ingest_payload (events : List TelemetryEvent) : String :=
  String.intercalate ("\n") (events.map eventLine)

/-!
### DatabasePool.check_replica_lag: the per-replica update loop

The loop body's interaction with the database is abstracted by one probe
outcome per replica: the heartbeat row was read (`ok ts`), the heartbeat
query returned no row (`empty`, leaving the slot untouched), or some step
raised (`fail`).  Timestamps are epoch milliseconds as integers (`int()`
truncation of the epoch extraction happens before any value reaches the lag
vector).
-/

inductive LagProbe
  | ok (heartbeat_ts : Int)
  | empty
  | fail
deriving DecidableEq, Repr

/-- The `999999` sentinel marking a replica as unavailable. -/
def unavailableSentinel : Int := 999999

/-- The lag-vector update performed by the `for i, replica_pool in
enumerate(self.replica_pools)` loop of `check_replica_lag`: slot `i` becomes
`int(primary_ts - replica_ts)` when the heartbeat row is read, is left
unchanged when the heartbeat query returns no row, and becomes the sentinel
when the probe raises; later slots are processed regardless. -/
def check_replica_lag (primary_ts : Int) : List Int → List LagProbe → List Int
  | [], _ => []
  | ls, [] => ls
  | l :: ls, p :: ps =>
      (match p with
       | LagProbe.ok ts => primary_ts - ts
       | LagProbe.empty => l
       | LagProbe.fail => unavailableSentinel) :: check_replica_lag primary_ts ls ps

example : check_replica_lag 5000 [0, 0, 0] [LagProbe.ok 4000, LagProbe.fail, LagProbe.ok 5000] = [1000, 999999, 0] := by decide

/-- C7: each input event is serialized as one tab-separated line whose
columns appear in the fixed order entity_id, tenant_id, attribute_id, value,
value_int, value_decimal, ingested_at; a `None` (or missing) field and an
empty-string field are emitted as the copy-protocol null sentinel `\N`, and
every other value as its Python string form.  The payload joins the lines
with newlines. -/
theorem ingest_telemetry_encoding (events : List TelemetryEvent) :
    ingest_payload events =
      String.intercalate ("\n") (events.map eventLine) ∧
    (∀ e ∈ events, eventLine e =
      String.intercalate ("\t")
        [fmt e.entity_id, fmt e.tenant_id, fmt e.attribute_id, fmt e.value,
         fmt e.value_int, fmt e.value_decimal, fmt e.ingested_at]) ∧
    (∀ v : Cell,
      (v = Cell.null → fmt v = "\\N") ∧
      (v = Cell.str ("") → fmt v = "\\N") ∧
      (v ≠ Cell.null → v ≠ Cell.str ("") → fmt v = pyStr v)) := by
  refine ⟨rfl, ?_, ?_⟩
  · intro e _
    simp only [eventLine, String.intercalate, String.intercalate.go]
  · intro v
    refine ⟨?_, ?_, ?_⟩
    · intro hv; simp [fmt, hv]
    · intro hv; simp [fmt, hv]
    · intro h1 h2
      simp [fmt, h1, h2]

/-- Closed instance of the C7 encoding theorem at a concrete event list,
discharging the conditional parts at concrete cells. -/
theorem ingest_telemetry_encoding_witness :
    eventLine
        { entity_id := Cell.int 1001, tenant_id := Cell.int 123
          attribute_id := Cell.int 42, value := Cell.str ("online")
          value_int := Cell.null, value_decimal := Cell.str ("")
          ingested_at := Cell.timestamp ("2025-10-16 12:00:00") } =
      "1001\t123\t42\tonline\t\\N\t\\N\t2025-10-16 12:00:00" ∧
    fmt Cell.null = "\\N" ∧ fmt (Cell.str ("")) = "\\N" ∧
    fmt (Cell.int 7) = pyStr (Cell.int 7) := by
  have h := ingest_telemetry_encoding
    [{ entity_id := Cell.int 1001, tenant_id := Cell.int 123
       attribute_id := Cell.int 42, value := Cell.str ("online")
       value_int := Cell.null, value_decimal := Cell.str ("")
       ingested_at := Cell.timestamp ("2025-10-16 12:00:00") }]
  refine ⟨?_, ?_, ?_, ?_⟩
  · rw [h.2.1 _ (List.mem_singleton.mpr rfl)]
    rfl
  · exact (h.2.2 Cell.null).1 rfl
  · exact (h.2.2 (Cell.str (""))).2.1 rfl
  · exact (h.2.2 (Cell.int 7)).2.2 (by decide) (by decide)

/-- C8 counterexample: with the primary clock at 100 ms and a replica
heartbeat at 200 ms, the code stores `100 - 200 = -100`, not the clamped
`max (100 - 200) 0 = 0`; the stored lag is negative. -/
theorem check_replica_lag_not_clamped :
    check_replica_lag 100 [0] [LagProbe.ok 200] = [-100] ∧
    check_replica_lag 100 [0] [LagProbe.ok 200] ≠ [max (100 - 200 : Int) 0] ∧
    ¬ (∀ x ∈ check_replica_lag 100 [0] [LagProbe.ok 200], 0 ≤ x) := by
  refine ⟨by decide, by decide, ?_⟩
  intro h
  have := h (-100) (by decide)
  omega

/-- C8 (amended): slot `i` of the updated lag vector is
`primary_ts - heartbeat_ts` (unclamped, so possibly negative) when the
heartbeat was read, the unavailable sentinel when the probe for replica `i`
failed, and the old value when the heartbeat query returned no row; a
failure at one replica leaves all other slots governed by their own probes
(remaining replicas are still processed), and the vector length is
preserved. -/
theorem check_replica_lag_spec (pts : Int) (lag0 : List Int)
    (probes : List LagProbe) (hlen : probes.length = lag0.length) :
    (check_replica_lag pts lag0 probes).length = lag0.length ∧
    (∀ i ts, probes.get? i = some (LagProbe.ok ts) →
      (check_replica_lag pts lag0 probes).get? i = some (pts - ts)) ∧
    (∀ i, probes.get? i = some LagProbe.fail →
      (check_replica_lag pts lag0 probes).get? i = some unavailableSentinel) ∧
    (∀ i, probes.get? i = some LagProbe.empty →
      (check_replica_lag pts lag0 probes).get? i = lag0.get? i) := by
  induction lag0 generalizing probes with
  | nil =>
    have : probes = [] := List.eq_nil_of_length_eq_zero (by simpa using hlen)
    subst this
    refine ⟨rfl, ?_, ?_, ?_⟩ <;> intro i <;> simp [check_replica_lag]
  | cons l ls ih =>
    cases probes with
    | nil => simp at hlen
    | cons p ps =>
      have hlen' : ps.length = ls.length := by simpa using hlen
      obtain ⟨ihlen, ihok, ihfail, ihempty⟩ := ih ps hlen'
      refine ⟨?_, ?_, ?_, ?_⟩
      · simpa [check_replica_lag] using ihlen
      · intro i ts hp
        cases i with
        | zero =>
          rw [List.get?_cons_zero] at hp
          injection hp with hp
          subst hp
          simp [check_replica_lag]
        | succ i' =>
          rw [List.get?_cons_succ] at hp
          have := ihok i' ts hp
          simp only [check_replica_lag]
          rw [List.get?_cons_succ]
          exact this
      · intro i hp
        cases i with
        | zero =>
          rw [List.get?_cons_zero] at hp
          injection hp with hp
          subst hp
          simp [check_replica_lag]
        | succ i' =>
          rw [List.get?_cons_succ] at hp
          have := ihfail i' hp
          simp only [check_replica_lag]
          rw [List.get?_cons_succ]
          exact this
      · intro i hp
        cases i with
        | zero =>
          rw [List.get?_cons_zero] at hp
          injection hp with hp
          subst hp
          simp [check_replica_lag]
        | succ i' =>
          rw [List.get?_cons_succ] at hp
          have := ihempty i' hp
          simp only [check_replica_lag]
          rw [List.get?_cons_succ, List.get?_cons_succ]
          exact this

/-- Closed instance of the C8 amended theorem on a concrete three-replica
probe vector. -/
theorem check_replica_lag_spec_witness :
    (check_replica_lag 5000 [0, 7, 9] [LagProbe.ok 4000, LagProbe.fail, LagProbe.empty]).length = 3 ∧
    (check_replica_lag 5000 [0, 7, 9] [LagProbe.ok 4000, LagProbe.fail, LagProbe.empty]).get? 0 = some 1000 ∧
    (check_replica_lag 5000 [0, 7, 9] [LagProbe.ok 4000, LagProbe.fail, LagProbe.empty]).get? 1 = some unavailableSentinel ∧
    (check_replica_lag 5000 [0, 7, 9] [LagProbe.ok 4000, LagProbe.fail, LagProbe.empty]).get? 2 = some 9 := by
  have h := check_replica_lag_spec 5000 [0, 7, 9]
    [LagProbe.ok 4000, LagProbe.fail, LagProbe.empty] (by decide)
  refine ⟨h.1, ?_, h.2.2.1 1 (by decide), ?_⟩
  · have := h.2.1 0 4000 (by decide)
    simpa using this
  · have := h.2.2.2 2 (by decide)
    simpa using this

/-!
### Redis cache and JSON round-trip

`_set_to_cache` stores `json.dumps(value, default=str)` and `_get_from_cache`
applies `json.loads` followed by a list-to-tuple conversion of each row.
The embedding models the JSON value structurally (serializing a `Json` value
to its string and parsing it back is the identity, so the string step is
dropped).  `default=str` sends every object JSON cannot represent — here the
`Decimal` and `datetime` cells — to its Python string form.  The cache is an
association list from keys to the stored JSON documents.
-/

inductive Json
  | num (n : Int)
  | str (s : String)
  | bool (b : Bool)
  | null
  | arr (xs : List Json)

/-- `json.dumps(_, default=str)` on one scalar cell. -/
def cellToJson : Cell → Json
  | Cell.int n => Json.num n
  | Cell.str s => Json.str s
  | Cell.bool b => Json.bool b
  | Cell.null => Json.null
  | Cell.decimal s => Json.str s
  | Cell.timestamp s => Json.str s

/-- `json.dumps(value, default=str)` on a row list: a JSON array of arrays
(tuples are serialized as arrays). -/
def dumpsRows (rows : Rows) : Json :=
  Json.arr (rows.map (fun r => Json.arr (r.map cellToJson)))

/-- `json.loads` on one scalar cell position.  The embedding covers the
scalar-cell fragment produced by `cursor.fetchall()`, which is the only shape
`_set_to_cache` ever stores; a nested array in cell position is outside it. -/
def jsonScalarToCell : Json → Option Cell
  | Json.num n => some (Cell.int n)
  | Json.str s => some (Cell.str s)
  | Json.bool b => some (Cell.bool b)
  | Json.null => some Cell.null
  | Json.arr _ => none

/-- `json.loads` of a cached document followed by the comprehension
`[tuple(row) if isinstance(row, list) else row for row in rows]`; a document
outside the row-list fragment corresponds to the raised-and-caught path that
yields `None`. -/
def loadsRows : Json → Option Rows
  | Json.arr rs => rs.mapM (fun r =>
      match r with
      | Json.arr cs => cs.mapM jsonScalarToCell
      | _ => none)
  | _ => none

/-- The Redis cache contents: an association list keyed by cache key. -/
abbrev Cache := List (String × Json)

def cacheLookup (c : Cache) (k : String) : Option Json :=
  (c.find? (fun kv => kv.1 == k)).map (fun kv => kv.2)

def cacheInsert (c : Cache) (k : String) (v : Json) : Cache :=
  (k, v) :: c.filter (fun kv => kv.1 != k)

def cacheErase (c : Cache) (k : String) : Cache :=
  c.filter (fun kv => kv.1 != k)

/-- `QueryRouter._get_from_cache(key)`: `None` when the Redis call raises
(`cacheGetFails`), the key is absent, or decoding raises; otherwise the
decoded rows with each row turned back into a tuple. -/
def get_from_cache (cacheGetFails : Bool) (c : Cache) (key : String) :
    Option Rows :=
  if cacheGetFails then none
  else
    match cacheLookup c key with
    | none => none
    | some j => loadsRows j

/-- `QueryRouter._set_to_cache(key, value, ttl)`: stores the serialized rows
unless the Redis call raises, in which case the error is swallowed and the
cache is unchanged.  The TTL does not affect the stored document. -/
def set_to_cache (cacheSetFails : Bool) (c : Cache) (key : String)
    (value : Rows) : Cache :=
  if cacheSetFails then c else cacheInsert c key (dumpsRows value)

/-- What one decode-after-encode does to a cell: JSON-native cells survive,
`Decimal` and `datetime` cells come back as their string forms. -/
def cellCoerce : Cell → Cell
  | Cell.decimal s => Cell.str s
  | Cell.timestamp s => Cell.str s
  | v => v

theorem jsonScalarToCell_cellToJson (v : Cell) :
    jsonScalarToCell (cellToJson v) = some (cellCoerce v) := by
  cases v <;> rfl

theorem loadsRows_dumpsRows (rows : Rows) :
    loadsRows (dumpsRows rows) = some (rows.map (List.map cellCoerce)) := by
  have hrow : ∀ r : Row, (r.map cellToJson).mapM jsonScalarToCell =
      some (r.map cellCoerce) := by
    intro r
    induction r with
    | nil => rfl
    | cons v r ih =>
      simp only [List.map_cons, List.mapM_cons, jsonScalarToCell_cellToJson,
        ih, Option.bind_eq_bind, Option.some_bind]
      rfl
  unfold loadsRows dumpsRows
  induction rows with
  | nil => rfl
  | cons r rs ih =>
    simp only [List.map_cons, List.mapM_cons, hrow r,
      Option.bind_eq_bind, Option.some_bind] at ih ⊢
    rw [ih]
    rfl

theorem cacheLookup_insert (c : Cache) (k : String) (v : Json) :
    cacheLookup (cacheInsert c k v) k = some v := by
  simp [cacheLookup, cacheInsert, List.find?]

/-- C9 counterexample: a single-cell row holding a `datetime` value does not
survive the cache round-trip: `_set_to_cache` stores it through
`json.dumps(default=str)` as the string `"2025-10-16 12:00:00"`, and
`_get_from_cache` returns a string cell, not a timestamp cell, so the cached
row list is not equal to the original. -/
theorem cache_roundtrip_not_type_preserving :
    get_from_cache false
        (set_to_cache false [] ("k1") [[Cell.timestamp ("2025-10-16 12:00:00")]])
        ("k1") =
      some [[Cell.str ("2025-10-16 12:00:00")]] ∧
    get_from_cache false
        (set_to_cache false [] ("k1") [[Cell.timestamp ("2025-10-16 12:00:00")]])
        ("k1") ≠
      some [[Cell.timestamp ("2025-10-16 12:00:00")]] := by
  constructor
  · rfl
  · intro h
    have h2 : some [[Cell.str ("2025-10-16 12:00:00")]] =
        some [[Cell.timestamp ("2025-10-16 12:00:00")]] := by
      rw [← h]
      rfl
    simp at h2

/-- C9 (amended): writing a row list with `_set_to_cache` and reading it back
with `_get_from_cache` (no Redis error on either side) yields the row list
with every cell coerced by the encode/decode pair: row count, row lengths and
cell order are preserved, JSON-native cells (`int`, `str`, `bool`, `None`)
come back unchanged, while `Decimal` and `datetime` cells come back as their
string forms; in particular the round-trip is the identity exactly when every
cell is JSON-native. -/
theorem cache_roundtrip_spec (c : Cache) (key : String) (rows : Rows) :
    get_from_cache false (set_to_cache false c key rows) key =
      some (rows.map (List.map cellCoerce)) ∧
    ((∀ r ∈ rows, ∀ v ∈ r, cellCoerce v = v) →
      get_from_cache false (set_to_cache false c key rows) key = some rows) := by
  have hget : get_from_cache false (set_to_cache false c key rows) key =
      loadsRows (dumpsRows rows) := by
    unfold get_from_cache set_to_cache
    simp [cacheLookup_insert]
  constructor
  · rw [hget, loadsRows_dumpsRows]
  · intro hid
    rw [hget, loadsRows_dumpsRows]
    congr 1
    calc rows.map (List.map cellCoerce)
        = rows.map id := by
          apply List.map_congr_left
          intro r hr
          calc List.map cellCoerce r = List.map id r := by
                apply List.map_congr_left
                intro v hv
                exact hid r hr v hv
            _ = r := List.map_id r
      _ = rows := List.map_id rows

/-- Closed instance of the C9 amended theorem: a JSON-native row list
round-trips unchanged, and a decimal cell comes back as its string form. -/
theorem cache_roundtrip_spec_witness :
    get_from_cache false
        (set_to_cache false [] ("k2") [[Cell.int 5, Cell.str ("a")], [Cell.bool true, Cell.null]])
        ("k2") =
      some [[Cell.int 5, Cell.str ("a")], [Cell.bool true, Cell.null]] ∧
    get_from_cache false (set_to_cache false [] ("k3") [[Cell.decimal ("1.50")]]) ("k3") =
      some [[Cell.str ("1.50")]] := by
  constructor
  · exact (cache_roundtrip_spec [] ("k2")
      [[Cell.int 5, Cell.str ("a")], [Cell.bool true, Cell.null]]).2 (by decide)
  · exact (cache_roundtrip_spec [] ("k3") [[Cell.decimal ("1.50")]]).1

/-!
### QueryRouter.execute_query

The method is embedded as a function of the explicit pre-state (the
circuit-breaker counter and the cache contents) and an environment recording
the outcomes of the external calls it may make: the lag vector consulted by
`get_replica_conn`, whether the initial pool acquire succeeds, whether the
Redis get/set raise, the result of running the query on the routed
connection (`none` models an exception anywhere in the `try` block), whether
`get_primary_conn()` in the circuit-breaker branch succeeds, and the result
of the retried query.  Besides the returned value and post-state, the result
carries the ordered trace of resource events the Python code performs, from
which acquired/released connection multisets are read off.  Connections are
numbered in order of acquisition within the invocation (0 = the routed
connection, 1 = the circuit-breaker primary connection).
-/

inductive REvent
  | acq (conn : Nat) (p : Pool)
  | rel (conn : Nat) (p : Pool)
  | cacheRead (k : String)
  | cacheWrite (k : String)
  | cacheDelete (k : String)
  | runQuery (conn : Nat)
  | commit
deriving DecidableEq, Repr

structure QueryMetadata where
  source : DataSource
  lag_ms : Int
  sampled_at : Nat
  consistency : ConsistencyLevel
deriving DecidableEq, Repr

inductive QueryError
  | invalidArgument
  | acquireFailed
  | queryFailed
  | fallbackAcquireFailed
  | fallbackQueryFailed
deriving DecidableEq, Repr

structure ExecEnv where
  lags : List Int
  acquireOk : Bool
  cacheGetFails : Bool
  cacheSetFails : Bool
  execOutcome : Option Rows
  fbAcquireOk : Bool
  fbExecOutcome : Option Rows
  now : Nat

structure ExecResult where
  outcome : Except QueryError (Rows × QueryMetadata)
  failures : Nat
  cache : Cache
  trace : List REvent

/-- `self._circuit_breaker_threshold = 5`. -/
def circuit_breaker_threshold : Nat := 5

/-- Python truthiness of the `cache_key` argument: absent or empty string is
falsy. -/
def truthyKey : Option String → Bool
  | none => false
  | some k => k != ""

def keyOf : Option String → String
  | none => ""
  | some k => k

/-- Trace of the cache probe: `_get_from_cache` is called exactly when
`cache_key` is truthy and consistency is eventual. -/
def probeTrace (consistency : ConsistencyLevel) (cache_key : Option String) :
    List REvent :=
  if truthyKey cache_key = true ∧ consistency = ConsistencyLevel.eventual then
    [REvent.cacheRead (keyOf cache_key)]
  else []

/-- The cache probe of step 1 of `execute_query`: its value when attempted,
`none` when the guard is false or the probe misses or raises. -/
def cacheProbe (cache0 : Cache) (env : ExecEnv)
    (consistency : ConsistencyLevel) (cache_key : Option String) :
    Option Rows :=
  if truthyKey cache_key = true ∧ consistency = ConsistencyLevel.eventual then
    get_from_cache env.cacheGetFails cache0 (keyOf cache_key)
  else none

/-- Step 2 of `execute_query` (backend selection): `strong` and `analytics`
acquire the primary with lag 0 (and leave `replica_idx = -1`); `eventual`
delegates to `get_replica_conn(max_lag_ms=3000)`. -/
def routeChoice (lags : List Int) (consistency : ConsistencyLevel) :
    ReplicaChoice :=
  match consistency with
  | ConsistencyLevel.strong =>
      { pool := Pool.primary, source := DataSource.primary
        replica_index := -1, lag_ms := 0 }
  | ConsistencyLevel.eventual => get_replica_conn lags 3000
  | ConsistencyLevel.analytics =>
      { pool := Pool.primary, source := DataSource.primary
        replica_index := -1, lag_ms := 0 }

/-- The release conditional appearing twice in `execute_query` (in the
breaker branch and in `finally`):
`if source == PRIMARY: primary putconn; elif replica_idx >= 0: replica
putconn`. -/
def releaseEvents (conn : Nat) (source : DataSource) (replica_idx : Int) :
    List REvent :=
  if source = DataSource.primary then [REvent.rel conn Pool.primary]
  else if replica_idx ≥ 0 then
    [REvent.rel conn (Pool.replicaPool replica_idx.toNat)]
  else []

/-- Steps 2-7 of `execute_query` (from backend selection on), reached when
the tenant check passed and the cache probe did not hit. -/
def execute_query_db (failures0 : Nat) (cache0 : Cache) (env : ExecEnv)
    (consistency : ConsistencyLevel) (cache_key : Option String) :
    ExecResult :=
  let ptr := probeTrace consistency cache_key
  let choice := routeChoice env.lags consistency
  if env.acquireOk then
    let tr0 := ptr ++ [REvent.acq 0 choice.pool, REvent.runQuery 0]
    match env.execOutcome with
    | some results =>
        -- success path: reset breaker, optionally cache, build metadata,
        -- release in `finally`
        let doCache :=
          truthyKey cache_key = true ∧ consistency = ConsistencyLevel.eventual
        { outcome := Except.ok (results,
            { source := choice.source, lag_ms := choice.lag_ms
              sampled_at := env.now, consistency := consistency })
          failures := 0
          cache :=
            if doCache then
              set_to_cache env.cacheSetFails cache0 (keyOf cache_key) results
            else cache0
          trace := tr0 ++
            (if doCache then [REvent.cacheWrite (keyOf cache_key)] else []) ++
            releaseEvents 0 choice.source choice.replica_index }
    | none =>
        -- `except Exception:` — increment the breaker counter
        let failures1 := failures0 + 1
        if failures1 ≥ circuit_breaker_threshold then
          let relOrig := releaseEvents 0 choice.source choice.replica_index
          if env.fbAcquireOk then
            match env.fbExecOutcome with
            | some results =>
                { outcome := Except.ok (results,
                    { source := DataSource.primary, lag_ms := 0
                      sampled_at := env.now
                      consistency := ConsistencyLevel.strong })
                  failures := 0, cache := cache0
                  trace := tr0 ++ relOrig ++
                    [REvent.acq 1 Pool.primary, REvent.runQuery 1,
                     REvent.rel 1 Pool.primary] }
            | none =>
                -- the retried query raised; `finally` sees source = PRIMARY
                -- and conn = the fallback primary connection
                { outcome := Except.error QueryError.fallbackQueryFailed
                  failures := failures1, cache := cache0
                  trace := tr0 ++ relOrig ++
                    [REvent.acq 1 Pool.primary, REvent.runQuery 1,
                     REvent.rel 1 Pool.primary] }
          else
            -- `get_primary_conn()` raised after the original connection was
            -- already returned; `source`, `replica_idx` and `conn` still
            -- hold their original values, so `finally` runs the same
            -- release conditional on the original connection again
            { outcome := Except.error QueryError.fallbackAcquireFailed
              failures := failures1, cache := cache0
              trace := tr0 ++ relOrig ++ relOrig }
        else
          -- below threshold: re-raise; `finally` releases the original
          { outcome := Except.error QueryError.queryFailed
            failures := failures1, cache := cache0
            trace := tr0 ++ releaseEvents 0 choice.source choice.replica_index }
  else
    { outcome := Except.error QueryError.acquireFailed
      failures := failures0, cache := cache0, trace := ptr }

/-- `QueryRouter.execute_query`: tenant check, cache probe, then the
database part. -/
def execute_query (failures0 : Nat) (cache0 : Cache) (env : ExecEnv)
    (tenant_id : Option Int) (consistency : ConsistencyLevel)
    (cache_key : Option String) : ExecResult :=
  if tenant_id = none then
    { outcome := Except.error QueryError.invalidArgument
      failures := failures0, cache := cache0, trace := [] }
  else
    match cacheProbe cache0 env consistency cache_key with
    | some results =>
        { outcome := Except.ok (results,
            { source := DataSource.redis, lag_ms := 0
              sampled_at := env.now, consistency := consistency })
          failures := failures0, cache := cache0
          trace := probeTrace consistency cache_key }
    | none => execute_query_db failures0 cache0 env consistency cache_key

/-- Connections acquired during an invocation, with their pools, in order. -/
def acquiredOf (tr : List REvent) : List (Nat × Pool) :=
  tr.filterMap (fun e =>
    match e with
    | REvent.acq c p => some (c, p)
    | _ => none)

/-- Connections released during an invocation, with the pools they were
returned to, in order. -/
def releasedOf (tr : List REvent) : List (Nat × Pool) :=
  tr.filterMap (fun e =>
    match e with
    | REvent.rel c p => some (c, p)
    | _ => none)

/-- C4: with `tenant_id = None` the call raises `ValueError` immediately, for
every consistency level and cache key, with the breaker counter and cache
untouched and an empty event trace — no connection acquired, no cache probe,
no query run. -/
theorem execute_query_null_tenant (failures0 : Nat) (cache0 : Cache)
    (env : ExecEnv) (consistency : ConsistencyLevel)
    (cache_key : Option String) :
    execute_query failures0 cache0 env none consistency cache_key =
      { outcome := Except.error QueryError.invalidArgument
        failures := failures0, cache := cache0, trace := [] } := by
  simp [execute_query]

/-- Environment of the C2 failing input: one healthy replica, the query on it
raises, and `get_primary_conn()` in the circuit-breaker branch raises too
(pool exhausted). -/
def envDoubleRelease : ExecEnv where
  lags := [100]
  acquireOk := true
  cacheGetFails := false
  cacheSetFails := false
  execOutcome := none
  fbAcquireOk := false
  fbExecOutcome := none
  now := 0

/-- C2 failing input: breaker counter at 4 (threshold 5), eventual read on a
healthy replica, query raises, then the fallback primary acquire raises.
The replica connection was already returned by the breaker branch, and the
`finally` block — whose `source`/`replica_idx`/`conn` still hold the original
values — returns it a second time: one connection acquired, the same
connection released twice, so the acquired and released multisets differ. -/
theorem execute_query_double_release :
    (execute_query 4 [] envDoubleRelease (some 7)
        ConsistencyLevel.eventual none).outcome =
      Except.error QueryError.fallbackAcquireFailed ∧
    acquiredOf (execute_query 4 [] envDoubleRelease (some 7)
        ConsistencyLevel.eventual none).trace = [(0, Pool.replicaPool 0)] ∧
    releasedOf (execute_query 4 [] envDoubleRelease (some 7)
        ConsistencyLevel.eventual none).trace =
      [(0, Pool.replicaPool 0), (0, Pool.replicaPool 0)] ∧
    ¬ List.Perm
        (acquiredOf (execute_query 4 [] envDoubleRelease (some 7)
          ConsistencyLevel.eventual none).trace)
        (releasedOf (execute_query 4 [] envDoubleRelease (some 7)
          ConsistencyLevel.eventual none).trace) := by
  refine ⟨rfl, by decide, by decide, by decide⟩

/-- C3: when the probe misses, the routed connection is acquired and the
query on it raises: if the incremented counter has reached the threshold
(5), the request is retried against the primary exactly once — the trace
shows the original connection returned to its own pool strictly before the
fallback primary acquire — and on fallback success the counter resets to 0
and the metadata is (primary, lag 0, strong); if the incremented counter is
below the threshold, the original error is re-raised with no retry and the
original connection is released in `finally`. -/
theorem circuit_breaker_fallback_spec (failures0 : Nat) (cache0 : Cache)
    (env : ExecEnv) (t : Int) (consistency : ConsistencyLevel)
    (cache_key : Option String)
    (hprobe : cacheProbe cache0 env consistency cache_key = none)
    (hacq : env.acquireOk = true)
    (hfail : env.execOutcome = none) :
    (failures0 + 1 ≥ circuit_breaker_threshold →
      env.fbAcquireOk = true →
      ∀ results, env.fbExecOutcome = some results →
        execute_query failures0 cache0 env (some t) consistency cache_key =
          { outcome := Except.ok (results,
              { source := DataSource.primary, lag_ms := 0
                sampled_at := env.now
                consistency := ConsistencyLevel.strong })
            failures := 0, cache := cache0
            trace := probeTrace consistency cache_key ++
              [REvent.acq 0 (routeChoice env.lags consistency).pool,
               REvent.runQuery 0] ++
              releaseEvents 0 (routeChoice env.lags consistency).source
                (routeChoice env.lags consistency).replica_index ++
              [REvent.acq 1 Pool.primary, REvent.runQuery 1,
               REvent.rel 1 Pool.primary] }) ∧
    (failures0 + 1 < circuit_breaker_threshold →
      execute_query failures0 cache0 env (some t) consistency cache_key =
        { outcome := Except.error QueryError.queryFailed
          failures := failures0 + 1, cache := cache0
          trace := probeTrace consistency cache_key ++
            [REvent.acq 0 (routeChoice env.lags consistency).pool,
             REvent.runQuery 0] ++
            releaseEvents 0 (routeChoice env.lags consistency).source
              (routeChoice env.lags consistency).replica_index }) := by
  constructor
  · intro hthr hfb results hres
    unfold execute_query
    rw [hprobe]
    simp only [execute_query_db, hacq, hfail, hfb, hres]
    rw [if_neg (by simp), if_pos hthr]
    simp [List.append_assoc]
  · intro hthr
    have hthr' : ¬ failures0 + 1 ≥ circuit_breaker_threshold := by omega
    unfold execute_query
    rw [hprobe]
    simp [execute_query_db, hacq, hfail, hthr', List.append_assoc]

/-- Environment for the C3 witness: one healthy replica, query raises there,
fallback primary acquire and query succeed. -/
def envFallback : ExecEnv where
  lags := [100]
  acquireOk := true
  cacheGetFails := false
  cacheSetFails := false
  execOutcome := none
  fbAcquireOk := true
  fbExecOutcome := some [[Cell.int 9]]
  now := 11

/-- Closed instance of the C3 theorem: at counter 4 the failing call is
retried once on primary and succeeds with strong metadata and counter 0; at
counter 2 the error is surfaced with no retry. -/
theorem circuit_breaker_fallback_spec_witness :
    execute_query 4 [] envFallback (some 7) ConsistencyLevel.eventual none =
      { outcome := Except.ok ([[Cell.int 9]],
          { source := DataSource.primary, lag_ms := 0, sampled_at := 11
            consistency := ConsistencyLevel.strong })
        failures := 0, cache := []
        trace := [REvent.acq 0 (Pool.replicaPool 0), REvent.runQuery 0,
          REvent.rel 0 (Pool.replicaPool 0), REvent.acq 1 Pool.primary,
          REvent.runQuery 1, REvent.rel 1 Pool.primary] } ∧
    execute_query 2 [] envFallback (some 7) ConsistencyLevel.eventual none =
      { outcome := Except.error QueryError.queryFailed
        failures := 3, cache := []
        trace := [REvent.acq 0 (Pool.replicaPool 0), REvent.runQuery 0,
          REvent.rel 0 (Pool.replicaPool 0)] } := by
  constructor
  · exact (circuit_breaker_fallback_spec 4 [] envFallback 7
      ConsistencyLevel.eventual none rfl rfl rfl).1 (by decide) rfl
      [[Cell.int 9]] rfl
  · exact (circuit_breaker_fallback_spec 2 [] envFallback 7
      ConsistencyLevel.eventual none rfl rfl rfl).2 (by decide)

/-- The routed source is always the primary or a replica, never the cache or
warehouse role. -/
theorem routeChoice_source (lags : List Int) (consistency : ConsistencyLevel) :
    (routeChoice lags consistency).source = DataSource.primary ∨
    (routeChoice lags consistency).source = DataSource.replica := by
  cases consistency with
  | strong => left; rfl
  | analytics => left; rfl
  | eventual =>
    simp only [routeChoice]
    cases hm : minByLag (healthyReplicas lags 3000) with
    | none => left; simp [get_replica_conn, hm]
    | some p =>
      right
      cases p
      simp [get_replica_conn, hm]

/-- Master case analysis for successful invocations: a success either came
through the database (normal or fallback path) and left the breaker counter
at 0 with a non-cache source, or was a cache hit, which leaves the counter
untouched and reports the redis source. -/
theorem execute_query_ok_failures (failures0 : Nat) (cache0 : Cache)
    (env : ExecEnv) (tenant_id : Option Int)
    (consistency : ConsistencyLevel) (cache_key : Option String)
    (pr : Rows × QueryMetadata)
    (hok : (execute_query failures0 cache0 env tenant_id consistency
        cache_key).outcome = Except.ok pr) :
    ((execute_query failures0 cache0 env tenant_id consistency
        cache_key).failures = 0 ∧ pr.2.source ≠ DataSource.redis) ∨
    ((execute_query failures0 cache0 env tenant_id consistency
        cache_key).failures = failures0 ∧
      pr.2.source = DataSource.redis) := by
  cases htenant : tenant_id with
  | none => simp [execute_query, htenant] at hok
  | some t =>
    cases hprobe : cacheProbe cache0 env consistency cache_key with
    | some results =>
      right
      simp [execute_query, htenant, hprobe] at hok ⊢
      rw [← hok]
    | none =>
      cases hacq : env.acquireOk with
      | false => simp [execute_query, execute_query_db, htenant, hprobe, hacq] at hok
      | true =>
        cases hexec : env.execOutcome with
        | some results =>
          left
          simp [execute_query, execute_query_db, htenant, hprobe, hacq, hexec] at hok ⊢
          rw [← hok]
          rcases routeChoice_source env.lags consistency with h | h <;> simp [h]
        | none =>
          by_cases hthr : failures0 + 1 ≥ circuit_breaker_threshold
          · cases hfb : env.fbAcquireOk with
            | false =>
              simp [execute_query, execute_query_db, htenant, hprobe, hacq,
                hexec, hthr, hfb] at hok
            | true =>
              cases hres : env.fbExecOutcome with
              | some results =>
                left
                simp [execute_query, execute_query_db, htenant, hprobe, hacq,
                  hexec, hthr, hfb, hres] at hok ⊢
                rw [← hok]
                simp
              | none =>
                simp [execute_query, execute_query_db, htenant, hprobe, hacq,
                  hexec, hthr, hfb, hres] at hok
          · simp [execute_query, execute_query_db, htenant, hprobe, hacq,
              hexec, hthr] at hok

/-- Arguments of one `execute_query` call in a sequence against the same
router. -/
structure RouterCall where
  env : ExecEnv
  tenant_id : Option Int
  consistency : ConsistencyLevel
  cache_key : Option String

/-- Run a sequence of `execute_query` calls against one router, threading the
breaker counter and the cache; returns the final counter, the final cache and
the outcomes in call order. -/
def runCalls : Nat → Cache → List RouterCall →
    Nat × Cache × List (Except QueryError (Rows × QueryMetadata))
  | f, c, [] => (f, c, [])
  | f, c, call :: rest =>
    let r := execute_query f c call.env call.tenant_id call.consistency
      call.cache_key
    let rr := runCalls r.failures r.cache rest
    (rr.1, rr.2.1, r.outcome :: rr.2.2)

/-- Starting from a zero counter, a sequence of calls that all return
successfully leaves the counter at zero. -/
theorem runCalls_all_ok_zero (calls : List RouterCall) :
    ∀ cache0 : Cache,
      (∀ o ∈ (runCalls 0 cache0 calls).2.2, ∃ pr, o = Except.ok pr) →
      (runCalls 0 cache0 calls).1 = 0 := by
  induction calls with
  | nil => intro cache0 _; rfl
  | cons call rest ih =>
    intro cache0 hall
    simp only [runCalls] at hall ⊢
    obtain ⟨pr, hpr⟩ := hall _ (List.mem_cons_self _ _)
    have hmaster := execute_query_ok_failures 0 cache0 call.env call.tenant_id
      call.consistency call.cache_key pr hpr
    have hf : (execute_query 0 cache0 call.env call.tenant_id call.consistency
        call.cache_key).failures = 0 := by
      rcases hmaster with ⟨h, _⟩ | ⟨h, _⟩ <;> exact h
    rw [hf] at hall ⊢
    exact ih _ (fun o ho => hall o (List.mem_cons_of_mem _ ho))

/-- C5: a call that returns successfully through the database — the normal
success path on primary or replica, or the circuit-breaker fallback, i.e.
any success whose reported source is not the cache — leaves the breaker
counter at zero; consequently a router that starts with a zero counter and
performs any sequence of successful calls ends with a zero counter. -/
theorem circuit_breaker_zero_after_success :
    (∀ (failures0 : Nat) (cache0 : Cache) (env : ExecEnv)
        (tenant_id : Option Int) (consistency : ConsistencyLevel)
        (cache_key : Option String) (pr : Rows × QueryMetadata),
      (execute_query failures0 cache0 env tenant_id consistency
          cache_key).outcome = Except.ok pr →
      pr.2.source ≠ DataSource.redis →
      (execute_query failures0 cache0 env tenant_id consistency
          cache_key).failures = 0) ∧
    (∀ (cache0 : Cache) (calls : List RouterCall),
      (∀ o ∈ (runCalls 0 cache0 calls).2.2, ∃ pr, o = Except.ok pr) →
      (runCalls 0 cache0 calls).1 = 0) := by
  constructor
  · intro failures0 cache0 env tenant_id consistency cache_key pr hok hsrc
    rcases execute_query_ok_failures failures0 cache0 env tenant_id consistency
      cache_key pr hok with ⟨h, _⟩ | ⟨_, h2⟩
    · exact h
    · exact absurd h2 hsrc
  · intro cache0 calls h
    exact runCalls_all_ok_zero calls cache0 h

/-- Environment for a plain successful eventual read on a replica. -/
def envSuccess : ExecEnv where
  lags := [500, 100, 2500]
  acquireOk := true
  cacheGetFails := false
  cacheSetFails := false
  execOutcome := some [[Cell.int 1]]
  fbAcquireOk := true
  fbExecOutcome := none
  now := 3

/-- Closed instance of the C5 theorem: a successful replica read at counter
3 resets the counter, and a two-call all-successful sequence from counter 0
ends at counter 0. -/
theorem circuit_breaker_zero_after_success_witness :
    (execute_query 3 [] envSuccess (some 7) ConsistencyLevel.eventual
        none).failures = 0 ∧
    (runCalls 0 []
        [{ env := envSuccess, tenant_id := some 7
           consistency := ConsistencyLevel.eventual, cache_key := none },
         { env := envSuccess, tenant_id := some 8
           consistency := ConsistencyLevel.strong, cache_key := none }]).1
      = 0 := by
  constructor
  · exact circuit_breaker_zero_after_success.1 3 [] envSuccess (some 7)
      ConsistencyLevel.eventual none
      ([[Cell.int 1]],
        { source := DataSource.replica, lag_ms := 100, sampled_at := 3
          consistency := ConsistencyLevel.eventual }) rfl (by decide)
  · refine circuit_breaker_zero_after_success.2 []
      [{ env := envSuccess, tenant_id := some 7
         consistency := ConsistencyLevel.eventual, cache_key := none },
       { env := envSuccess, tenant_id := some 8
         consistency := ConsistencyLevel.strong, cache_key := none }] ?_
    intro o ho
    have hco : (runCalls 0 []
        [{ env := envSuccess, tenant_id := some 7
           consistency := ConsistencyLevel.eventual, cache_key := none },
         { env := envSuccess, tenant_id := some 8
           consistency := ConsistencyLevel.strong, cache_key := none }]).2.2 =
        [Except.ok ([[Cell.int 1]],
          { source := DataSource.replica, lag_ms := 100, sampled_at := 3
            consistency := ConsistencyLevel.eventual }),
         Except.ok ([[Cell.int 1]],
          { source := DataSource.primary, lag_ms := 0, sampled_at := 3
            consistency := ConsistencyLevel.strong })] := rfl
    rw [hco] at ho
    rcases List.mem_cons.mp ho with h | h
    · exact ⟨_, h⟩
    · rcases List.mem_cons.mp h with h2 | h2
      · exact ⟨_, h2⟩
      · simp at h2

/-- C10: the cache key carries no tenant component and the cache-hit path
performs no tenant check.  When a first eventual call with a truthy cache
key misses the probe, runs the query and stores its rows, a second eventual
call with the same key but any tenant returns the first call's cached rows
from Redis, touching no connection — its entire trace is the cache read —
and its result is the same for every tenant. -/
theorem cache_ignores_tenant (failures0 : Nat) (cache0 : Cache)
    (env1 : ExecEnv) (t1 : Int) (k : String) (rows : Rows)
    (hk : k ≠ "")
    (hmiss : get_from_cache env1.cacheGetFails cache0 k = none)
    (hacq : env1.acquireOk = true)
    (hexec : env1.execOutcome = some rows)
    (hset : env1.cacheSetFails = false) :
    (execute_query failures0 cache0 env1 (some t1) ConsistencyLevel.eventual
        (some k)).cache = cacheInsert cache0 k (dumpsRows rows) ∧
    (∀ (t2 : Int) (failures2 : Nat) (env2 : ExecEnv),
      env2.cacheGetFails = false →
      execute_query failures2
          (execute_query failures0 cache0 env1 (some t1)
            ConsistencyLevel.eventual (some k)).cache
          env2 (some t2) ConsistencyLevel.eventual (some k) =
        { outcome := Except.ok (rows.map (List.map cellCoerce),
            { source := DataSource.redis, lag_ms := 0
              sampled_at := env2.now
              consistency := ConsistencyLevel.eventual })
          failures := failures2
          cache := (execute_query failures0 cache0 env1 (some t1)
            ConsistencyLevel.eventual (some k)).cache
          trace := [REvent.cacheRead k] }) ∧
    (∀ (t2 t2' : Int) (failures2 : Nat) (env2 : ExecEnv),
      env2.cacheGetFails = false →
      execute_query failures2
          (execute_query failures0 cache0 env1 (some t1)
            ConsistencyLevel.eventual (some k)).cache
          env2 (some t2) ConsistencyLevel.eventual (some k) =
        execute_query failures2
          (execute_query failures0 cache0 env1 (some t1)
            ConsistencyLevel.eventual (some k)).cache
          env2 (some t2') ConsistencyLevel.eventual (some k)) := by
  have htruthy : truthyKey (some k) = true := by
    simp [truthyKey, bne_iff_ne, hk]
  have hprobe : cacheProbe cache0 env1 ConsistencyLevel.eventual (some k) =
      none := by
    simp [cacheProbe, htruthy, keyOf, hmiss]
  have hcache1 : (execute_query failures0 cache0 env1 (some t1)
      ConsistencyLevel.eventual (some k)).cache =
      cacheInsert cache0 k (dumpsRows rows) := by
    unfold execute_query
    rw [hprobe]
    simp [execute_query_db, hacq, hexec, htruthy, keyOf, set_to_cache, hset]
  have hsecond : ∀ (t2 : Int) (failures2 : Nat) (env2 : ExecEnv),
      env2.cacheGetFails = false →
      execute_query failures2
          (execute_query failures0 cache0 env1 (some t1)
            ConsistencyLevel.eventual (some k)).cache
          env2 (some t2) ConsistencyLevel.eventual (some k) =
        { outcome := Except.ok (rows.map (List.map cellCoerce),
            { source := DataSource.redis, lag_ms := 0
              sampled_at := env2.now
              consistency := ConsistencyLevel.eventual })
          failures := failures2
          cache := (execute_query failures0 cache0 env1 (some t1)
            ConsistencyLevel.eventual (some k)).cache
          trace := [REvent.cacheRead k] } := by
    intro t2 failures2 env2 hget2
    rw [hcache1]
    have hprobe2 : cacheProbe (cacheInsert cache0 k (dumpsRows rows)) env2
        ConsistencyLevel.eventual (some k) =
        some (rows.map (List.map cellCoerce)) := by
      simp [cacheProbe, htruthy, keyOf, get_from_cache, hget2,
        cacheLookup_insert, loadsRows_dumpsRows]
    unfold execute_query
    rw [hprobe2]
    simp [probeTrace, htruthy, keyOf]
  refine ⟨hcache1, hsecond, ?_⟩
  intro t2 t2' failures2 env2 hget2
  rw [hsecond t2 failures2 env2 hget2, hsecond t2' failures2 env2 hget2]

/-- Environment for the C10 witness: a healthy replica serving a one-cell
row list, caching enabled and the cache healthy. -/
def envLeak : ExecEnv where
  lags := [100]
  acquireOk := true
  cacheGetFails := false
  cacheSetFails := false
  execOutcome := some [[Cell.int 5]]
  fbAcquireOk := true
  fbExecOutcome := none
  now := 4

/-- Closed instance of the C10 theorem: tenant 7 populates key `k1`; the
call by tenant 8 with the same key gets tenant 7's rows from Redis without
acquiring any connection. -/
theorem cache_ignores_tenant_witness :
    execute_query 0
        (execute_query 0 [] envLeak (some 7) ConsistencyLevel.eventual
          (some ("k1"))).cache
        envLeak (some 8) ConsistencyLevel.eventual (some ("k1")) =
      { outcome := Except.ok ([[Cell.int 5]],
          { source := DataSource.redis, lag_ms := 0, sampled_at := 4
            consistency := ConsistencyLevel.eventual })
        failures := 0
        cache := (execute_query 0 [] envLeak (some 7)
          ConsistencyLevel.eventual (some ("k1"))).cache
        trace := [REvent.cacheRead ("k1")] } := by
  exact (cache_ignores_tenant 0 [] envLeak 7 ("k1") [[Cell.int 5]]
    (by decide) rfl rfl rfl rfl).2.1 8 0 envLeak rfl

/-!
### WriteOptimizer.upsert_hot_attributes

Embedded like `execute_query`: an environment records whether the primary
acquire, the `upsert_hot_attrs` call, the commit and the Redis delete
succeed; the result carries the outcome, the cache post-state and the trace.
-/

structure UpsertEnv where
  acquireOk : Bool
  upsertOk : Bool
  commitOk : Bool
  deleteFails : Bool

inductive WriteError
  | acquireFailed
  | upsertFailed
  | commitFailed
deriving DecidableEq, Repr

structure UpsertResult where
  outcome : Except WriteError Unit
  cache : Cache
  trace : List REvent

/-- The cache key `f"entity:{tenant_id}:{entity_id}"`. -/
def hotKey (tenant_id entity_id : Int) : String :=
  "entity:" ++ toString tenant_id ++ ":" ++ toString entity_id

/-- `WriteOptimizer.upsert_hot_attributes(tenant_id, entity_id, attributes)`:
acquire primary, run the SECURITY DEFINER upsert, commit, then delete the
cache key with a bare `except: pass` around the delete; the connection is
returned in `finally` on every path. -/
def upsert_hot_attributes (cache0 : Cache) (env : UpsertEnv)
    (tenant_id entity_id : Int) : UpsertResult :=
  if env.acquireOk then
    if env.upsertOk then
      if env.commitOk then
        { outcome := Except.ok ()
          cache :=
            if env.deleteFails then cache0
            else cacheErase cache0 (hotKey tenant_id entity_id)
          trace := [REvent.acq 0 Pool.primary, REvent.runQuery 0,
            REvent.commit, REvent.cacheDelete (hotKey tenant_id entity_id),
            REvent.rel 0 Pool.primary] }
      else
        { outcome := Except.error WriteError.commitFailed, cache := cache0
          trace := [REvent.acq 0 Pool.primary, REvent.runQuery 0,
            REvent.commit, REvent.rel 0 Pool.primary] }
    else
      { outcome := Except.error WriteError.upsertFailed, cache := cache0
        trace := [REvent.acq 0 Pool.primary, REvent.runQuery 0,
          REvent.rel 0 Pool.primary] }
  else
    { outcome := Except.error WriteError.acquireFailed, cache := cache0
      trace := [] }

theorem cacheLookup_erase (c : Cache) (k : String) :
    cacheLookup (cacheErase c k) k = none := by
  induction c with
  | nil => rfl
  | cons kv c ih =>
    unfold cacheErase at ih ⊢
    rw [List.filter_cons]
    by_cases h : (kv.1 != k) = true
    · unfold cacheLookup at ih ⊢
      rw [if_pos h, List.find?_cons_of_neg _ (by simpa using h)]
      exact ih
    · rw [if_neg h]
      exact ih

/-- C6 counterexample: when the Redis delete raises, the bare
`except: pass` swallows the error, `upsert_hot_attributes` still returns
success, and the key `entity:9:42` is still present in the cache — the
claimed postcondition that the key is absent after a successful return
fails. -/
theorem upsert_key_not_absent_on_delete_error :
    (upsert_hot_attributes [(hotKey 9 42, Json.null)]
        { acquireOk := true, upsertOk := true, commitOk := true
          deleteFails := true } 9 42).outcome = Except.ok () ∧
    (cacheLookup (upsert_hot_attributes [(hotKey 9 42, Json.null)]
        { acquireOk := true, upsertOk := true, commitOk := true
          deleteFails := true } 9 42).cache (hotKey 9 42)).isSome = true := by
  exact ⟨rfl, rfl⟩

/-- C6 (amended): on every successful return of `upsert_hot_attributes` the
trace shows the cache deletion of `entity:{tenant}:{entity}` issued strictly
after the database commit, with the connection released on exit; when the
deletion succeeds the key is absent from the cache afterwards; a failed
deletion leaves the cache unchanged but neither rolls back the committed
write nor fails the call — acquire, upsert and commit succeeding is enough
for a success return regardless of the delete outcome. -/
theorem upsert_hot_attributes_spec (cache0 : Cache) (env : UpsertEnv)
    (tenant_id entity_id : Int)
    (hok : (upsert_hot_attributes cache0 env tenant_id entity_id).outcome =
      Except.ok ()) :
    (upsert_hot_attributes cache0 env tenant_id entity_id).trace =
      [REvent.acq 0 Pool.primary, REvent.runQuery 0, REvent.commit,
       REvent.cacheDelete (hotKey tenant_id entity_id),
       REvent.rel 0 Pool.primary] ∧
    (env.deleteFails = false →
      cacheLookup (upsert_hot_attributes cache0 env tenant_id entity_id).cache
        (hotKey tenant_id entity_id) = none) ∧
    (env.deleteFails = true →
      (upsert_hot_attributes cache0 env tenant_id entity_id).cache = cache0) ∧
    (∀ env' : UpsertEnv, env'.acquireOk = true → env'.upsertOk = true →
      env'.commitOk = true →
      (upsert_hot_attributes cache0 env' tenant_id entity_id).outcome =
        Except.ok ()) := by
  cases hacq : env.acquireOk with
  | false => simp [upsert_hot_attributes, hacq] at hok
  | true =>
    cases hup : env.upsertOk with
    | false => simp [upsert_hot_attributes, hacq, hup] at hok
    | true =>
      cases hcommit : env.commitOk with
      | false => simp [upsert_hot_attributes, hacq, hup, hcommit] at hok
      | true =>
        refine ⟨?_, ?_, ?_, ?_⟩
        · simp [upsert_hot_attributes, hacq, hup, hcommit]
        · intro hdel
          simp [upsert_hot_attributes, hacq, hup, hcommit, hdel,
            cacheLookup_erase]
        · intro hdel
          simp [upsert_hot_attributes, hacq, hup, hcommit, hdel]
        · intro env' h1 h2 h3
          simp [upsert_hot_attributes, h1, h2, h3]

/-- Closed instance of the C6 amended theorem at a concrete pre-populated
cache, with the delete succeeding. -/
theorem upsert_hot_attributes_spec_witness :
    (upsert_hot_attributes [(hotKey 9 42, Json.null)]
        { acquireOk := true, upsertOk := true, commitOk := true
          deleteFails := false } 9 42).trace =
      [REvent.acq 0 Pool.primary, REvent.runQuery 0, REvent.commit,
       REvent.cacheDelete (hotKey 9 42), REvent.rel 0 Pool.primary] ∧
    cacheLookup (upsert_hot_attributes [(hotKey 9 42, Json.null)]
        { acquireOk := true, upsertOk := true, commitOk := true
          deleteFails := false } 9 42).cache (hotKey 9 42) = none := by
  have h := upsert_hot_attributes_spec [(hotKey 9 42, Json.null)]
    { acquireOk := true, upsertOk := true, commitOk := true
      deleteFails := false } 9 42 rfl
  exact ⟨h.1, h.2.1 rfl⟩

/-- Closed instance of the C1 theorem at the spec's example lag vector: the
selection lands on replica 1 with lag 100, which is within the bound,
minimal, and at the lowest index attaining the minimum. -/
theorem get_replica_conn_correct_witness :
    ((∀ j, ∀ hj : j < ([500, 100, 2500] : List Int).length,
        ¬ ([500, 100, 2500] : List Int).get ⟨j, hj⟩ ≤ 3000) ∧
      get_replica_conn [500, 100, 2500] 3000 =
        { pool := Pool.primary, source := DataSource.primary
          replica_index := -1, lag_ms := 0 }) ∨
    (∃ i, ∃ hi : i < ([500, 100, 2500] : List Int).length,
      get_replica_conn [500, 100, 2500] 3000 =
        { pool := Pool.replicaPool i, source := DataSource.replica
          replica_index := Int.ofNat i
          lag_ms := ([500, 100, 2500] : List Int).get ⟨i, hi⟩ } ∧
      ([500, 100, 2500] : List Int).get ⟨i, hi⟩ ≤ 3000 ∧
      (∀ j, ∀ hj : j < ([500, 100, 2500] : List Int).length,
        ([500, 100, 2500] : List Int).get ⟨j, hj⟩ ≤ 3000 →
        ([500, 100, 2500] : List Int).get ⟨i, hi⟩ ≤
          ([500, 100, 2500] : List Int).get ⟨j, hj⟩) ∧
      (∀ j, ∀ hj : j < ([500, 100, 2500] : List Int).length,
        j < i → ([500, 100, 2500] : List Int).get ⟨j, hj⟩ ≤ 3000 →
        ([500, 100, 2500] : List Int).get ⟨i, hi⟩ <
          ([500, 100, 2500] : List Int).get ⟨j, hj⟩)) :=
  get_replica_conn_correct [500, 100, 2500] 3000
